import Mathlib

/-!
Verification of the Meshtastic GUI window controller (`meshtastic_ui.py`).

The controller is a single class `MeshtasticApp` holding: an optional device
interface handle, a log-file path, a scrolling message widget, a node-list
widget, a one-line text input, and the terminal it prints to.  We embed its
state as a structure and each method as a state transformer that additionally
reports whether an exception escaped the method (`err`) and which calls it
made into the external device interface (`calls`).

External collaborators are modelled by data:
  * the device interface is a record of its node table and of the behaviour
    of its `sendText` primitive (which may raise);
  * the file system is the content of the single log file, `none` when the
    file does not exist;
  * Python's `bytes.decode("utf-8")` is modelled by an executable UTF-8
    decoder, and `str.strip()` by an executable whitespace stripper.
-/

/-- Outcome of `SerialInterface.sendText`: `none` means the call returns
normally, `some msg` means it raises an exception rendering as `msg`. -/
def SendOutcome := String → Option String

/-- Model of the external `SerialInterface` handle: its node table
(`node_id` mapped to the optional `user.longName` metadata, `none` when the
nested lookup falls back to the default), its `sendText` behaviour, and its
`close` behaviour (`none` = returns normally, `some msg` = raises an
exception rendering as `msg`). -/
structure Interface where
  nodes : List (String × Option String)
  sendTextErr : SendOutcome
  closeErr : Option String

/-- The Python exceptions the controller can observe. -/
inductive PyErr where
  | keyError (k : String)
  | unicodeDecodeError
  | fileNotFound
  | exn (msg : String)
deriving DecidableEq

/-- Calls made into the external device interface. -/
inductive ExtCall where
  | sendText (m : String)
  | closeItf
deriving DecidableEq

/-- The `decoded` sub-dictionary of a packet; `none` fields model missing
dictionary keys. `portnum` is the raw enum value, `payload` the raw bytes. -/
structure Decoded where
  portnum : Option Nat
  payload : Option (List Nat)
deriving DecidableEq

/-- A packet delivered to the receive callback: the `decoded` nested mapping
and the `from` field (a numeric sender id); `none` models a missing key. -/
structure Packet where
  decoded : Option Decoded
  fromId : Option Int
deriving DecidableEq

/-- `mesh_pb2.PortNum.TEXT_MESSAGE_APP` (value 1 in the Meshtastic protobuf). -/
def TEXT_MESSAGE_APP : Nat := 1

/-- State of the `MeshtasticApp` window: the connection handle, the content
of the `messages.log` file (`none` = file absent), the message-log widget
(one entry per appended paragraph), the node-list widget, the text input,
and the lines printed to the terminal. -/
structure AppState where
  interface : Option Interface
  log_file : Option String
  message_list : List String
  node_list : List String
  message_input : String
  terminal : List String

/-- Result of running one controller method: the new window state, the
exception that escaped the method (if any), and the external calls made. -/
structure OpResult where
  state : AppState
  err : Option PyErr
  calls : List ExtCall

/-- Characters stripped by Python's `str.strip()`: the full Python
whitespace set, i.e. U+0009–U+000D, U+001C–U+001F, the space, U+0085,
U+00A0, U+1680, U+2000–U+200A, the line and paragraph separators, U+202F,
U+205F and U+3000. -/
def isPySpace (c : Char) : Bool :=
  (0x09 ≤ c.toNat && c.toNat ≤ 0x0D) ||
  (0x1C ≤ c.toNat && c.toNat ≤ 0x20) ||
  c.toNat = 0x85 || c.toNat = 0xA0 || c.toNat = 0x1680 ||
  (0x2000 ≤ c.toNat && c.toNat ≤ 0x200A) ||
  c.toNat = 0x2028 || c.toNat = 0x2029 || c.toNat = 0x202F ||
  c.toNat = 0x205F || c.toNat = 0x3000

/-- Model of Python's `str.strip()`: drop leading and trailing whitespace. -/
def pyStrip (s : String) : String :=
  ⟨((s.data.dropWhile isPySpace).reverse.dropWhile isPySpace).reverse⟩

/-- Helper for `pyReadlines`: split a character stream into Python-style
lines, each keeping its trailing newline. -/
def pyReadlinesAux : List Char → List Char → List String
  | [], acc => if acc.isEmpty then [] else [String.mk acc.reverse]
  | c :: rest, acc =>
    if c = '\n' then String.mk (acc.reverse ++ ['\n']) :: pyReadlinesAux rest []
    else pyReadlinesAux rest (c :: acc)

/-- Model of Python's `file.readlines()`: split on newlines, keeping each
newline with its line; a final fragment without a newline is kept too. -/
def pyReadlines (s : String) : List String :=
  pyReadlinesAux s.data []

/-- A UTF-8 continuation byte. -/
def utf8Cont (b : Nat) : Bool := 0x80 ≤ b && b < 0xC0

/-- Executable model of Python's `bytes.decode("utf-8")`: strict UTF-8
decoding rejecting overlong forms, surrogates, and out-of-range scalars;
`none` models `UnicodeDecodeError`. -/
def utf8DecodeAux : List Nat → Option (List Char)
  | [] => some []
  | b :: rest =>
    if b < 0x80 then
      (utf8DecodeAux rest).map (fun cs => Char.ofNat b :: cs)
    else if b < 0xC2 then none
    else if b < 0xE0 then
      match rest with
      | b1 :: rest1 =>
        if utf8Cont b1 then
          (utf8DecodeAux rest1).map
            (fun cs => Char.ofNat ((b - 0xC0) * 0x40 + (b1 - 0x80)) :: cs)
        else none
      | [] => none
    else if b < 0xF0 then
      match rest with
      | b1 :: b2 :: rest2 =>
        if utf8Cont b1 && utf8Cont b2 then
          let cp := (b - 0xE0) * 0x1000 + (b1 - 0x80) * 0x40 + (b2 - 0x80)
          if cp < 0x800 then none
          else if 0xD800 ≤ cp && cp < 0xE000 then none
          else (utf8DecodeAux rest2).map (fun cs => Char.ofNat cp :: cs)
        else none
      | _ => none
    else if b < 0xF5 then
      match rest with
      | b1 :: b2 :: b3 :: rest3 =>
        if utf8Cont b1 && utf8Cont b2 && utf8Cont b3 then
          let cp := (b - 0xF0) * 0x40000 + (b1 - 0x80) * 0x1000 +
            (b2 - 0x80) * 0x40 + (b3 - 0x80)
          if cp < 0x10000 then none
          else if 0x10FFFF < cp then none
          else (utf8DecodeAux rest3).map (fun cs => Char.ofNat cp :: cs)
        else none
      | _ => none
    else none

/-- Decode a byte list as UTF-8 text, `none` on `UnicodeDecodeError`. -/
def utf8Decode (bs : List Nat) : Option String :=
  (utf8DecodeAux bs).map String.mk

/-- Render a string the way `str(KeyError(k))` does: quoted. -/
def pyQuote (k : String) : String := "\x27" ++ k ++ "\x27"

/-- Render an exception the way `str(e)` does (model). -/
def pyErrStr : PyErr → String
  | .keyError k => pyQuote k
  | .unicodeDecodeError => "invalid utf-8 sequence"
  | .fileNotFound => "[Errno 2] No such file or directory: " ++ pyQuote "messages.log"
  | .exn msg => msg

/-- Model of Python's rendering of the payload bytes inside `f"{packet}"`. -/
def payloadRepr (bs : List Nat) : String :=
  "b" ++ pyQuote (String.intercalate " " (bs.map toString))

/-- Model of `f"{packet}"`: a dict-style rendering listing the present keys. -/
def packetRepr (p : Packet) : String :=
  let entries :=
    (match p.decoded with
     | none => []
     | some d =>
       let inner :=
         (match d.portnum with
          | none => []
          | some n => [pyQuote "portnum" ++ ": " ++ toString n]) ++
         (match d.payload with
          | none => []
          | some bs => [pyQuote "payload" ++ ": " ++ payloadRepr bs])
       [pyQuote "decoded" ++ ": \x7b" ++ String.intercalate ", " inner ++ "\x7d"]) ++
    (match p.fromId with
     | none => []
     | some f => [pyQuote "from" ++ ": " ++ toString f])
  "\x7b" ++ String.intercalate ", " entries ++ "\x7d"

/-- The content of the log file, the empty string when the file is absent. -/
def fileContent (s : AppState) : String := s.log_file.getD ""

/-- `log_message`: print to the terminal and append to the GUI message log. -/
def log_message (s : AppState) (m : String) : AppState :=
  { s with terminal := s.terminal ++ [m], message_list := s.message_list ++ [m] }

/-- Append text to the log file (mode `"a"` creates the file when absent). -/
def fileAppend (s : AppState) (text : String) : AppState :=
  { s with log_file := some (fileContent s ++ text) }

/-- Loop body of `output_nodes`: add one node line to the node-list widget
and log it. -/
def output_nodes_step (st : AppState) (nn : String × Option String) : AppState :=
  let node_name := nn.2.getD "Unknown Node"
  let st1 := { st with node_list := st.node_list ++ [nn.1 ++ ": " ++ node_name] }
  log_message st1 ("Node " ++ nn.1 ++ ": " ++ node_name)

/-- `output_nodes`: when connected, clear the node list, add a header, then
add and log one line per node from the interface's node table; when
disconnected, log a report. -/
def output_nodes (s : AppState) : OpResult :=
  match s.interface with
  | some itf =>
    let s1 := { s with node_list := ["Connected Nodes:"] }
    ⟨itf.nodes.foldl output_nodes_step s1, none, []⟩
  | none => ⟨log_message s "Device not connected. Please connect first.", none, []⟩

/-- `connect_to_device`: log the attempt, open the serial interface (the
environment `env` says whether the constructor succeeds or raises), register
the callback, list the nodes, and log success; any exception is caught and
logged. -/
def connect_to_device (env : Except String Interface) (s : AppState) : OpResult :=
  let s1 := log_message s "Connecting to Meshtastic device on /dev/ttyACM0..."
  match env with
  | .error e => ⟨log_message s1 ("Error connecting to device: " ++ e), none, []⟩
  | .ok itf =>
    let s2 := { s1 with interface := some itf }
    let s3 := (output_nodes s2).state
    ⟨log_message s3 "Connected to Meshtastic device!", none, []⟩

/-- Body of `on_message_received` up to the `except` clauses: log the raw
packet, then if the packet is a text message decode it, log it and append it
to the log file, else log a non-text report; returns the state reached
together with the exception raised, if any. -/
def on_message_body (p : Packet) (s : AppState) : AppState × Option PyErr :=
  let s1 := log_message s ("Raw packet received: " ++ packetRepr p)
  match p.decoded with
  | none => (s1, some (.keyError "decoded"))
  | some d =>
    match d.portnum with
    | none => (s1, some (.keyError "portnum"))
    | some pn =>
      if pn = TEXT_MESSAGE_APP then
        match d.payload with
        | none => (s1, some (.keyError "payload"))
        | some bs =>
          match utf8Decode bs with
          | none => (s1, some .unicodeDecodeError)
          | some message =>
            match p.fromId with
            | none => (s1, some (.keyError "from"))
            | some sender =>
              let parsed_message := "Message from " ++ toString sender ++ ": " ++ message
              let s2 := log_message s1 parsed_message
              (fileAppend s2 (parsed_message ++ "\n"), none)
      else (log_message s1 "Received a non-text packet.", none)

/-- `on_message_received`: run the body and catch `KeyError`,
`UnicodeDecodeError` and any other exception, logging one line each. -/
def on_message_received (p : Packet) (s : AppState) : OpResult :=
  match on_message_body p s with
  | (s1, none) => ⟨s1, none, []⟩
  | (s1, some (.keyError k)) =>
    ⟨log_message s1 ("Missing key in packet: " ++ pyQuote k), none, []⟩
  | (s1, some .unicodeDecodeError) =>
    ⟨log_message s1 "Error decoding message payload.", none, []⟩
  | (s1, some e) =>
    ⟨log_message s1 ("Error processing message: " ++ pyErrStr e), none, []⟩

/-- Loop body of `load_messages_from_file`: append one stripped line to the
message widget. -/
def load_step (st : AppState) (line : String) : AppState :=
  { st with message_list := st.message_list ++ [pyStrip line] }

/-- `load_messages_from_file`: clear the message widget, then read every
line of the log file into it (stripped); a missing file raises
`FileNotFoundError`, caught and logged. -/
def load_messages_from_file (s : AppState) : OpResult :=
  let s1 := { s with message_list := [] }
  match s1.log_file with
  | none => ⟨log_message s1 "No message log file found.", none, []⟩
  | some content => ⟨(pyReadlines content).foldl load_step s1, none, []⟩

/-- `send_message`: when connected, strip the input; a non-empty result is
passed to the interface's `sendText` (whose exception, if raised, escapes
the method: there is no `try` here), logged, and the input cleared; an empty
result is refused with a log line; when disconnected, log a report. -/
def send_message (s : AppState) : OpResult :=
  match s.interface with
  | some itf =>
    let message := pyStrip s.message_input
    if message = "" then
      ⟨log_message s "Cannot send an empty message.", none, []⟩
    else
      match itf.sendTextErr message with
      | some e => ⟨s, some (.exn e), [.sendText message]⟩
      | none =>
        let s1 := log_message s ("Sent message: " ++ message)
        ⟨{ s1 with message_input := "" }, none, [.sendText message]⟩
  | none => ⟨log_message s "Device not connected. Please connect first.", none, []⟩

/-- `closeEvent`: release the device handle when one is held; the call to
`close` has no surrounding handler, so an exception it raises escapes the
method (after the call has been made). -/
def closeEvent (s : AppState) : OpResult :=
  match s.interface with
  | some itf =>
    match itf.closeErr with
    | some e => ⟨s, some (.exn e), [.closeItf]⟩
    | none => ⟨s, none, [.closeItf]⟩
  | none => ⟨s, none, []⟩

/-- The new log-file content extends the old one: nothing already written is
truncated, rewritten or deleted. -/
def FileExtends (s s' : AppState) : Prop :=
  ∃ t, fileContent s' = fileContent s ++ t

/-- A packet that lacks one of the keys the callback reads, or whose payload
fails UTF-8 decoding (the failure cases of claim C5). -/
def LacksKeyOrUndecodable (p : Packet) : Prop :=
  p.decoded = none ∨
  ∃ d, p.decoded = some d ∧
    (d.portnum = none ∨
     (d.portnum = some TEXT_MESSAGE_APP ∧
       (d.payload = none ∨
        (∃ bs, d.payload = some bs ∧ utf8Decode bs = none) ∨
        (∃ bs m, d.payload = some bs ∧ utf8Decode bs = some m ∧ p.fromId = none))))

/-- A disconnected app state with empty widgets and no log file, used as a
concrete test fixture. -/
def st0 : AppState :=
  { interface := none, log_file := none, message_list := [],
    node_list := ["Nodes will appear here..."], message_input := "",
    terminal := [] }

/-- A benign interface fixture: one node, `sendText` and `close` never
raise. -/
def itf0 : Interface :=
  { nodes := [("!a4e9", some "Base")], sendTextErr := fun _ => none,
    closeErr := none }

/-- An interface fixture whose `sendText` always raises. -/
def itfRaise : Interface :=
  { nodes := [], sendTextErr := fun _ => some "radio failure",
    closeErr := none }

/-- An interface fixture whose `close` raises. -/
def itfCloseRaise : Interface :=
  { nodes := [], sendTextErr := fun _ => none,
    closeErr := some "close failure" }

/-- A well-formed text packet: portnum 1, payload the UTF-8 bytes of
`"hi"`, sender 7. -/
def pktText : Packet :=
  { decoded := some { portnum := some TEXT_MESSAGE_APP, payload := some [104, 105] },
    fromId := some 7 }

/-- A packet missing the `decoded` key. -/
def pktNoDecoded : Packet := { decoded := none, fromId := some 7 }

/-- A non-text packet: portnum 3 (position report). -/
def pktPosition : Packet :=
  { decoded := some { portnum := some 3, payload := some [1, 2] }, fromId := some 7 }

/-- A connected state whose interface raises on `sendText`, input `"hi"`. -/
def stRaise : AppState :=
  { st0 with interface := some itfRaise, message_input := "hi" }

/-- A connected state whose interface raises on `close`. -/
def stCloseRaise : AppState :=
  { st0 with interface := some itfCloseRaise }

/-- A connected state with a benign interface and padded input `" hi "`. -/
def stPad : AppState :=
  { st0 with interface := some itf0, message_input := " hi " }

/-- A connected state whose input is whitespace only. -/
def stWs : AppState :=
  { st0 with interface := some itf0, message_input := " \t" }

/-! ## Helper lemmas -/

/-- `log_message` never touches the log file. -/
theorem fileContent_log_message (s : AppState) (m : String) :
    fileContent (log_message s m) = fileContent s := rfl

/-- The node-listing loop never touches the log file. -/
theorem foldl_output_step_log_file (l : List (String × Option String)) (st : AppState) :
    (l.foldl output_nodes_step st).log_file = st.log_file := by
  induction l generalizing st with
  | nil => rfl
  | cons a t ih => rw [List.foldl_cons, ih]; rfl

/-- The message-loading loop never touches the log file. -/
theorem foldl_load_step_log_file (l : List String) (st : AppState) :
    (l.foldl load_step st).log_file = st.log_file := by
  induction l generalizing st with
  | nil => rfl
  | cons a t ih => rw [List.foldl_cons, ih]; rfl

/-- `output_nodes` never touches the log file. -/
theorem output_nodes_log_file (s : AppState) :
    (output_nodes s).state.log_file = s.log_file := by
  cases h : s.interface with
  | none => simp [output_nodes, h, log_message]
  | some itf => simp [output_nodes, h, foldl_output_step_log_file]

/-- An operation that leaves the file content unchanged extends it. -/
theorem fileExtends_of_eq {s s' : AppState} (h : fileContent s' = fileContent s) :
    FileExtends s s' :=
  ⟨"", by rw [h, String.append_empty]⟩

/-- Stripping an all-whitespace string yields the empty string. -/
theorem pyStrip_of_all_space (x : String) (h : x.data.all isPySpace = true) :
    pyStrip x = "" := by
  have h1 : x.data.dropWhile isPySpace = [] :=
    List.dropWhile_eq_nil_iff.mpr (by simpa [List.all_eq_true] using h)
  simp [pyStrip, h1]

/-! ## Claim theorems -/

/-- C2 (counterexample): neither `send_message` nor `closeEvent` has a
`try`/`except`; when the external `sendText` or `close` primitive raises,
the exception escapes the method instead of being caught and converted
into a log line. -/
theorem send_message_raises_uncaught :
    (send_message stRaise).err = some (PyErr.exn "radio failure") ∧
    (closeEvent stCloseRaise).err = some (PyErr.exn "close failure") :=
  ⟨rfl, rfl⟩

/-- C2 (amended): the three operations wrapped in `try`/`except` —
connecting, the receive callback and loading messages — catch every
failure at the point of occurrence and never re-raise; `send_message` and
`closeEvent` have no handler, so exceptions from the external `sendText`
and `close` primitives propagate to their callers. -/
theorem guarded_ops_never_raise (env : Except String Interface) (p : Packet)
    (s : AppState) :
    (connect_to_device env s).err = none ∧
    (on_message_received p s).err = none ∧
    (load_messages_from_file s).err = none := by
  refine ⟨?_, ?_, ?_⟩
  · cases env <;> rfl
  · rcases h : on_message_body p s with ⟨s1, e⟩
    rcases e with _ | e
    · simp [on_message_received, h]
    · rcases e <;> simp [on_message_received, h]
  · rcases h : s.log_file with _ | c <;> simp [load_messages_from_file, h]

/-- C3: while connected, an input that is empty or whitespace-only is
refused: `sendText` is never called and a refusal line is appended to the
visible log. -/
theorem send_blank_input_refused (s : AppState) (itf : Interface)
    (hc : s.interface = some itf)
    (hw : s.message_input.data.all isPySpace = true) :
    (send_message s).calls = [] ∧
    (send_message s).state.message_list
      = s.message_list ++ ["Cannot send an empty message."] := by
  have hstrip : pyStrip s.message_input = "" := pyStrip_of_all_space _ hw
  simp [send_message, hc, hstrip, log_message]

/-- C3 (witness): the whitespace-only fixture is refused. -/
theorem send_blank_input_refused_witness :
    (send_message stWs).calls = [] ∧
    (send_message stWs).state.message_list
      = stWs.message_list ++ ["Cannot send an empty message."] :=
  send_blank_input_refused stWs itf0 rfl (by decide)

/-- C4 (counterexample): `send_message` strips the input before sending, so
the text forwarded to `sendText` is not the text-box contents verbatim: on
input `" hi "` the call made is `sendText "hi"`. -/
theorem send_not_verbatim :
    (send_message stPad).calls ≠ [ExtCall.sendText stPad.message_input] := by
  decide

/-- C4 (amended): while connected, `send_message` forwards the
whitespace-stripped text-box contents to `sendText`, and refuses exactly
the inputs that are empty after stripping. -/
theorem send_forwards_stripped (s : AppState) (itf : Interface)
    (hc : s.interface = some itf) :
    (pyStrip s.message_input ≠ "" →
      (send_message s).calls = [ExtCall.sendText (pyStrip s.message_input)]) ∧
    (pyStrip s.message_input = "" → (send_message s).calls = []) := by
  constructor
  · intro hne
    cases h2 : itf.sendTextErr (pyStrip s.message_input) <;>
      simp [send_message, hc, hne, h2]
  · intro he
    simp [send_message, hc, he]

/-- C4 (amended, witness): on the padded-input fixture the stripped text is
forwarded. -/
theorem send_forwards_stripped_witness :
    (pyStrip stPad.message_input ≠ "" →
      (send_message stPad).calls = [ExtCall.sendText (pyStrip stPad.message_input)]) ∧
    (pyStrip stPad.message_input = "" → (send_message stPad).calls = []) :=
  send_forwards_stripped stPad itf0 rfl

/-- C9: closing the window calls the device handle's `close` exactly once
when a connection is held, and never when disconnected. -/
theorem close_releases_handle_once (s : AppState) :
    (closeEvent s).calls.count ExtCall.closeItf
      = if s.interface.isSome then 1 else 0 := by
  rcases h : s.interface with _ | itf
  · simp [closeEvent, h, List.count_nil]
  · rcases h2 : itf.closeErr with _ | e <;>
      simp [closeEvent, h, h2, List.count_cons, List.count_nil]

/-- C1 (counterexample): a successfully decoded text packet adds two lines
to the visible message log (the raw-packet debug line and the formatted
message), not exactly one. -/
theorem recv_text_adds_two_visible_lines :
    ¬ ((on_message_received pktText st0).state.message_list.length
        = st0.message_list.length + 1) := by
  decide

/-- C1 (amended): for a packet whose portnum is the text-message marker,
whose payload decodes as UTF-8 and which carries a `from` field, the
callback appends exactly one line `"Message from {sender}: {message}"` to
the log file, and appends two lines to the visible log: the raw-packet
debug line followed by that same formatted line; no exception escapes. -/
theorem recv_text_packet_effects (s : AppState) (p : Packet) (d : Decoded)
    (bs : List Nat) (msg : String) (sender : Int)
    (hd : p.decoded = some d) (hpn : d.portnum = some TEXT_MESSAGE_APP)
    (hpl : d.payload = some bs) (hdec : utf8Decode bs = some msg)
    (hfrom : p.fromId = some sender) :
    (on_message_received p s).state.message_list
      = s.message_list ++ ["Raw packet received: " ++ packetRepr p,
          "Message from " ++ toString sender ++ ": " ++ msg] ∧
    fileContent (on_message_received p s).state
      = fileContent s ++ ("Message from " ++ toString sender ++ ": " ++ msg ++ "\n") ∧
    (on_message_received p s).err = none := by
  refine ⟨?_, ?_, ?_⟩ <;>
    simp [on_message_received, on_message_body, hd, hpn, hpl, hdec, hfrom,
      log_message, fileAppend, fileContent]

/-- C1 (amended, witness): the concrete `"hi"` text packet from sender 7. -/
theorem recv_text_packet_effects_witness :
    (on_message_received pktText st0).state.message_list
      = st0.message_list ++ ["Raw packet received: " ++ packetRepr pktText,
          "Message from " ++ toString (7 : Int) ++ ": " ++ "hi"] ∧
    fileContent (on_message_received pktText st0).state
      = fileContent st0
          ++ ("Message from " ++ toString (7 : Int) ++ ": " ++ "hi" ++ "\n") ∧
    (on_message_received pktText st0).err = none :=
  recv_text_packet_effects st0 pktText
    ⟨some TEXT_MESSAGE_APP, some [104, 105]⟩ [104, 105] "hi" 7
    rfl rfl rfl (by decide) rfl

/-- C5: a packet lacking one of the expected keys, or whose payload fails
UTF-8 decoding, yields exactly one log line describing the failure (after
the raw-packet debug line), writes nothing to the log file, and lets no
exception escape. -/
theorem recv_malformed_single_failure_line (p : Packet) (s : AppState)
    (h : LacksKeyOrUndecodable p) :
    ∃ failLine,
      ((∃ k, failLine = "Missing key in packet: " ++ pyQuote k) ∨
        failLine = "Error decoding message payload.") ∧
      (on_message_received p s).state.message_list
        = s.message_list ++ ["Raw packet received: " ++ packetRepr p, failLine] ∧
      (on_message_received p s).state.log_file = s.log_file ∧
      (on_message_received p s).err = none := by
  rcases h with h | ⟨d, hd, h⟩
  · refine ⟨_, Or.inl ⟨"decoded", rfl⟩, ?_, ?_, ?_⟩ <;>
      simp [on_message_received, on_message_body, h, log_message]
  · rcases h with h1 | ⟨hpn, h2⟩
    · refine ⟨_, Or.inl ⟨"portnum", rfl⟩, ?_, ?_, ?_⟩ <;>
        simp [on_message_received, on_message_body, hd, h1, log_message]
    · rcases h2 with hpl | ⟨bs, hpl, hdec⟩ | ⟨bs, m, hpl, hdec, hfrom⟩
      · refine ⟨_, Or.inl ⟨"payload", rfl⟩, ?_, ?_, ?_⟩ <;>
          simp [on_message_received, on_message_body, hd, hpn, hpl, log_message]
      · refine ⟨_, Or.inr rfl, ?_, ?_, ?_⟩ <;>
          simp [on_message_received, on_message_body, hd, hpn, hpl, hdec,
            log_message]
      · refine ⟨_, Or.inl ⟨"from", rfl⟩, ?_, ?_, ?_⟩ <;>
          simp [on_message_received, on_message_body, hd, hpn, hpl, hdec, hfrom,
            log_message]

/-- C5 (witness): the packet missing its `decoded` key. -/
theorem recv_malformed_witness :
    LacksKeyOrUndecodable pktNoDecoded ∧
    ∃ failLine,
      ((∃ k, failLine = "Missing key in packet: " ++ pyQuote k) ∨
        failLine = "Error decoding message payload.") ∧
      (on_message_received pktNoDecoded st0).state.message_list
        = st0.message_list
            ++ ["Raw packet received: " ++ packetRepr pktNoDecoded, failLine] ∧
      (on_message_received pktNoDecoded st0).state.log_file = st0.log_file ∧
      (on_message_received pktNoDecoded st0).err = none :=
  ⟨Or.inl rfl, recv_malformed_single_failure_line pktNoDecoded st0 (Or.inl rfl)⟩

/-- C6: loading messages when the log file is absent clears the visible log
and leaves in it only the report line, with no exception escaping. -/
theorem load_messages_no_file (s : AppState) (h : s.log_file = none) :
    (load_messages_from_file s).state.message_list
      = ["No message log file found."] ∧
    (load_messages_from_file s).state.log_file = none ∧
    (load_messages_from_file s).err = none := by
  refine ⟨?_, ?_, ?_⟩ <;> simp [load_messages_from_file, h, log_message]

/-- C6 (witness): the initial state has no log file. -/
theorem load_messages_no_file_witness :
    st0.log_file = none ∧
    ((load_messages_from_file st0).state.message_list
        = ["No message log file found."] ∧
      (load_messages_from_file st0).state.log_file = none ∧
      (load_messages_from_file st0).err = none) :=
  ⟨rfl, load_messages_no_file st0 rfl⟩

/-- C7: listing nodes while disconnected appends the not-connected report
to the visible log and leaves the node-list widget unchanged. -/
theorem list_nodes_disconnected (s : AppState) (h : s.interface = none) :
    (output_nodes s).state.node_list = s.node_list ∧
    (output_nodes s).state.message_list
      = s.message_list ++ ["Device not connected. Please connect first."] := by
  refine ⟨?_, ?_⟩ <;> simp [output_nodes, h, log_message]

/-- C7 (witness): the initial state is disconnected. -/
theorem list_nodes_disconnected_witness :
    st0.interface = none ∧
    ((output_nodes st0).state.node_list = st0.node_list ∧
      (output_nodes st0).state.message_list
        = st0.message_list ++ ["Device not connected. Please connect first."]) :=
  ⟨rfl, list_nodes_disconnected st0 rfl⟩

/-- C10: a packet whose portnum is not the text-message marker leaves the
log file untouched and appends the non-text report (after the raw-packet
debug line) to the visible log; no exception escapes. -/
theorem recv_nontext_packet (s : AppState) (p : Packet) (d : Decoded) (pn : Nat)
    (hd : p.decoded = some d) (hpn : d.portnum = some pn)
    (hne : pn ≠ TEXT_MESSAGE_APP) :
    (on_message_received p s).state.log_file = s.log_file ∧
    (on_message_received p s).state.message_list
      = s.message_list ++ ["Raw packet received: " ++ packetRepr p,
          "Received a non-text packet."] ∧
    (on_message_received p s).err = none := by
  refine ⟨?_, ?_, ?_⟩ <;>
    simp [on_message_received, on_message_body, hd, hpn, hne, log_message]

/-- C10 (witness): the concrete position packet (portnum 3). -/
theorem recv_nontext_packet_witness :
    (on_message_received pktPosition st0).state.log_file = st0.log_file ∧
    (on_message_received pktPosition st0).state.message_list
      = st0.message_list ++ ["Raw packet received: " ++ packetRepr pktPosition,
          "Received a non-text packet."] ∧
    (on_message_received pktPosition st0).err = none :=
  recv_nontext_packet st0 pktPosition ⟨some 3, some [1, 2]⟩ 3 rfl rfl (by decide)

/-- The body of the receive callback only ever extends the log file. -/
theorem on_message_body_file (p : Packet) (s : AppState) :
    FileExtends s (on_message_body p s).1 := by
  rcases p with ⟨pd, pf⟩
  rcases pd with _ | ⟨dpn, dpl⟩
  · exact fileExtends_of_eq rfl
  · rcases dpn with _ | pn
    · exact fileExtends_of_eq rfl
    · by_cases hpn : pn = TEXT_MESSAGE_APP
      · subst hpn
        rcases dpl with _ | bs
        · exact fileExtends_of_eq rfl
        · rcases hdec : utf8Decode bs with _ | m
          · exact fileExtends_of_eq
              (by simp [on_message_body, hdec, log_message, fileContent])
          · rcases pf with _ | sender
            · exact fileExtends_of_eq
                (by simp [on_message_body, hdec, log_message, fileContent])
            · refine ⟨"Message from " ++ toString sender ++ ": " ++ m ++ "\n", ?_⟩
              simp [on_message_body, hdec, log_message, fileAppend, fileContent]
      · exact fileExtends_of_eq
          (by simp [on_message_body, hpn, log_message, fileContent])

/-- The receive callback only ever extends the log file. -/
theorem on_message_received_file (p : Packet) (s : AppState) :
    FileExtends s (on_message_received p s).state := by
  have hb := on_message_body_file p s
  rcases h : on_message_body p s with ⟨s1, e⟩
  rw [h] at hb
  rcases e with _ | e
  · simpa [on_message_received, h] using hb
  · rcases e <;>
      simpa [on_message_received, h, FileExtends, fileContent_log_message] using hb

/-- Connecting never touches the log file. -/
theorem connect_file_unchanged (env : Except String Interface) (s : AppState) :
    (connect_to_device env s).state.log_file = s.log_file := by
  cases env with
  | error e => simp [connect_to_device, log_message]
  | ok itf => simp [connect_to_device, log_message, output_nodes_log_file]

/-- Loading messages only reads the log file. -/
theorem load_file_unchanged (s : AppState) :
    (load_messages_from_file s).state.log_file = s.log_file := by
  rcases h : s.log_file with _ | c
  · simp [load_messages_from_file, h, log_message]
  · simp [load_messages_from_file, h, foldl_load_step_log_file]

/-- Sending never touches the log file. -/
theorem send_file_unchanged (s : AppState) :
    (send_message s).state.log_file = s.log_file := by
  rcases h : s.interface with _ | itf
  · simp [send_message, h, log_message]
  · by_cases he : pyStrip s.message_input = ""
    · simp [send_message, h, he, log_message]
    · rcases h2 : itf.sendTextErr (pyStrip s.message_input) with _ | e <;>
        simp [send_message, h, he, h2, log_message]

/-- Closing never touches the log file. -/
theorem close_file_unchanged (s : AppState) :
    (closeEvent s).state.log_file = s.log_file := by
  rcases h : s.interface with _ | itf
  · simp [closeEvent, h]
  · rcases h2 : itf.closeErr with _ | e <;> simp [closeEvent, h, h2]

/-- C8: every controller operation leaves the existing log-file content a
prefix of the new content: the receive callback only appends, loading only
reads, and no operation truncates, rewrites or deletes what was written. -/
theorem log_file_append_only (env : Except String Interface) (p : Packet)
    (s : AppState) :
    FileExtends s (connect_to_device env s).state ∧
    FileExtends s (on_message_received p s).state ∧
    FileExtends s (load_messages_from_file s).state ∧
    FileExtends s (output_nodes s).state ∧
    FileExtends s (send_message s).state ∧
    FileExtends s (closeEvent s).state :=
  ⟨fileExtends_of_eq (by simp [fileContent, connect_file_unchanged]),
   on_message_received_file p s,
   fileExtends_of_eq (by simp [fileContent, load_file_unchanged]),
   fileExtends_of_eq (by simp [fileContent, output_nodes_log_file]),
   fileExtends_of_eq (by simp [fileContent, send_file_unchanged]),
   fileExtends_of_eq (by simp [fileContent, close_file_unchanged])⟩
